import Mathlib

/-!
Verification development for the photo-metadata ingestion and search backend
(`main.py`, `schemas.py`).  The Python code is shallowly embedded: dynamic
(JSON/CSV/SQLite) values become the inductive `PS.Value`, fallible code
returns `Except`, the Mongo document store becomes an explicit `PS.Store`
threaded through the handlers, and floating point numbers are modelled as
rationals (every Python float is an exact rational; IEEE specials such as
`inf`/`nan` are outside the model and noted where relevant).
-/

set_option autoImplicit false

namespace PS

/-- A Python datetime (as produced by `datetime.strptime` /
`datetime.utcfromtimestamp`).  Sub-second precision is not modelled (no
claim depends on it); all handled instants are whole seconds apart from
fractional epoch inputs, whose fraction the model truncates. -/
structure DateTime where
  year : Nat
  month : Nat
  day : Nat
  hour : Nat
  minute : Nat
  second : Nat
  deriving DecidableEq, Repr

/-- Dynamic Python values that flow through the ingestion pipeline:
`None`, `str`, `int`, `float` (as an exact rational), `bool`, `list`,
`dict` (with string keys, as in parsed JSON) and `datetime`. -/
inductive Value where
  | vNone
  | vStr (s : String)
  | vInt (n : Int)
  | vFloat (q : Rat)
  | vBool (b : Bool)
  | vList (xs : List Value)
  | vDict (kvs : List (String × Value))
  | vDT (d : DateTime)
  deriving Repr

/-- Python truthiness (`bool(val)`): `None`, `""`, `0`, `0.0`, `False`,
`[]` and `{}` are falsy, everything else (including any datetime) truthy. -/
def Value.isTruthy : Value → Bool
  | .vNone => false
  | .vStr s => !s.isEmpty
  | .vInt n => n != 0
  | .vFloat q => q != 0
  | .vBool b => b
  | .vList xs => !xs.isEmpty
  | .vDict kvs => !kvs.isEmpty
  | .vDT _ => true

/-- Python `a or b`. -/
def pyOr (a b : Value) : Value := if a.isTruthy then a else b

/-- The single-quote character, written via its code point to keep string
literals free of quote characters. -/
def squote : String := String.singleton (Char.ofNat 39)

/-- Zero-padded two-digit rendering, as used by `str(datetime)`. -/
def pad2 (n : Nat) : String :=
  if n < 10 then "0" ++ toString n else toString n

/-- Zero-padded four-digit rendering. -/
def pad4 (n : Nat) : String :=
  if n < 10 then "000" ++ toString n
  else if n < 100 then "00" ++ toString n
  else if n < 1000 then "0" ++ toString n
  else toString n

/-- `str(datetime)`: `YYYY-MM-DD HH:MM:SS`. -/
def dtStr (d : DateTime) : String :=
  pad4 d.year ++ "-" ++ pad2 d.month ++ "-" ++ pad2 d.day ++ " " ++
    pad2 d.hour ++ ":" ++ pad2 d.minute ++ ":" ++ pad2 d.second

/-- ASCII lower-casing of a character (Python `.lower()`; non-ASCII case
folds are outside the model and unused by the pipeline's fixed sets). -/
def pyLowerChar (c : Char) : Char :=
  if 'A' ≤ c ∧ c ≤ 'Z' then Char.ofNat (c.toNat + 32) else c

/-- Python `str.lower()`. -/
def pyLower (s : String) : String := String.mk (s.data.map pyLowerChar)

/-- Python `str.strip()`: remove leading and trailing whitespace. -/
def pyStrip (s : String) : String :=
  String.mk (((s.data.dropWhile Char.isWhitespace).reverse.dropWhile Char.isWhitespace).reverse)

/-- Split a character list at every occurrence of `c`, keeping empty
pieces — Python `str.split(c)` with a one-character separator. -/
def splitCharAux (c : Char) : List Char → List Char → List (List Char)
  | [], acc => [acc.reverse]
  | x :: xs, acc =>
      if x = c then acc.reverse :: splitCharAux c xs []
      else splitCharAux c xs (x :: acc)

/-- Python `str.split(c)` for a one-character separator. -/
def splitChar (c : Char) (s : String) : List String :=
  (splitCharAux c s.data []).map String.mk

/-- `q * 10` without `Rat.mul` (which is irreducible): renormalised via
`mkRat`. -/
def ratTimes10 (q : Rat) : Rat := mkRat (q.num * 10) q.den

/-- Least `k ≤ fuel` such that `q * 10^k` is an integer, if any.  Every
value reachable from a Python float is dyadic, hence has such a `k`. -/
def decDigits : Nat → Rat → Option Nat
  | 0, q => if q.den = 1 then some 0 else none
  | fuel + 1, q => if q.den = 1 then some 0 else (decDigits fuel (ratTimes10 q)).map (· + 1)

/-- Decimal rendering of a float value (`str(float)`); e.g. `4.9 ↦ "4.9"`,
`4 ↦ "4.0"`.  Python prints the shortest round-tripping decimal; for the
exact-decimal rationals used throughout this development the two agree. -/
def floatStr (q : Rat) : String :=
  let sign := if q.num < 0 then "-" else ""
  let a : Rat := if q.num < 0 then mkRat (-q.num) q.den else q
  match decDigits 400 a with
  | some 0 => sign ++ toString a.num ++ ".0"
  | some k =>
      let scaled : Int := a.num * ((10 ^ k : Nat) : Int) / (a.den : Int)
      let digits := toString scaled.toNat
      let digits := if digits.length ≤ k then
        String.mk (List.replicate (k + 1 - digits.length) '0') ++ digits else digits
      let whole := digits.take (digits.length - k)
      let frac := digits.drop (digits.length - k)
      sign ++ whole ++ "." ++ frac
  | none => sign ++ toString a.num ++ "/" ++ toString a.den

mutual

/-- Python `str(val)`. -/
def Value.pyStr : Value → String
  | .vNone => "None"
  | .vStr s => s
  | .vInt n => toString n
  | .vFloat q => floatStr q
  | .vBool b => if b then "True" else "False"
  | .vDT d => dtStr d
  | .vList xs => "[" ++ reprJoin xs ++ "]"
  | .vDict kvs => "\x7b" ++ reprJoinKV kvs ++ "\x7d"

/-- Python `repr(val)` (as used for elements inside `str(list)`);
string escaping inside `repr` is not reproduced, only quoting.  It agrees
with `str` on everything but strings. -/
def Value.pyRepr : Value → String
  | .vNone => "None"
  | .vStr s => squote ++ s ++ squote
  | .vInt n => toString n
  | .vFloat q => floatStr q
  | .vBool b => if b then "True" else "False"
  | .vDT d => dtStr d
  | .vList xs => "[" ++ reprJoin xs ++ "]"
  | .vDict kvs => "\x7b" ++ reprJoinKV kvs ++ "\x7d"

/-- Comma-separated `repr`s of list elements. -/
def reprJoin : List Value → String
  | [] => ""
  | [v] => v.pyRepr
  | v :: vs => v.pyRepr ++ ", " ++ reprJoin vs

/-- Comma-separated `repr`s of dict entries. -/
def reprJoinKV : List (String × Value) → String
  | [] => ""
  | [kv] => squote ++ kv.1 ++ squote ++ ": " ++ kv.2.pyRepr
  | kv :: kvs => squote ++ kv.1 ++ squote ++ ": " ++ kv.2.pyRepr ++ ", " ++ reprJoinKV kvs

end

/-- `dict.get(key)` on a parsed-JSON object: the value, else `None`.
First binding wins, matching a Python dict with unique keys. -/
def dget (kvs : List (String × Value)) (k : String) : Value :=
  match kvs.find? (fun kv => kv.1 == k) with
  | some kv => kv.2
  | none => .vNone

/-- The truthy-string set of `_coerce_bool`. -/
def boolTruthy : List String := ["1", "true", "yes", "y", "picked"]

/-- The falsy-string set of `_coerce_bool`. -/
def boolFalsy : List String := ["0", "false", "no", "n", "unpicked"]

/-- The string test of `_coerce_bool`: `str(val).strip().lower()` matched
against the two sets. -/
def boolStrTest (s : String) : Option Bool :=
  let t := pyLower (pyStrip s)
  if boolTruthy.contains t then some true
  else if boolFalsy.contains t then some false
  else none

/-- `_coerce_bool` (main.py:87-97).  `val is None or val == ""` short-circuits
to `None`; native bools pass through; otherwise the stripped, lowered
`str(val)` is matched against the truthy/falsy sets. -/
def coerce_bool : Value → Option Bool
  | .vNone => none
  | .vStr s => if s = "" then none else boolStrTest s
  | .vBool b => some b
  | v => boolStrTest v.pyStr

/-- Truncation toward zero, the behaviour of Python `int(float)`. -/
def ratTrunc (q : Rat) : Int :=
  if 0 ≤ q then q.floor else q.ceil

/-- `int(str)` after stripping whitespace: an optional sign followed by a
nonempty run of decimal digits (digit-group underscores are not modelled). -/
def intOfDigits : List Char → Option Nat
  | [] => none
  | cs => if cs.all Char.isDigit then
      some (cs.foldl (fun acc c => 10 * acc + (c.toNat - 48)) 0) else none

/-- Integer parse of a string, as `int(str)` does (modulo underscores). -/
def pyIntOfStr (s : String) : Option Int :=
  match (pyStrip s).data with
  | '-' :: cs => (intOfDigits cs).map (fun n => -(n : Int))
  | '+' :: cs => (intOfDigits cs).map (fun n => (n : Int))
  | cs => (intOfDigits cs).map (fun n => (n : Int))

/-- `_coerce_int` (main.py:100-104): `int(val) if val not in (None, "") else
None`, with any exception yielding `None`.  `int()` truncates native floats
toward zero, parses integer strings, raises on fractional strings and on
non-numeric values (modelled as `none`). -/
def coerce_int : Value → Option Int
  | .vNone => none
  | .vStr s => if s = "" then none else pyIntOfStr s
  | .vInt n => some n
  | .vFloat q => some (ratTrunc q)
  | .vBool b => some (if b then 1 else 0)
  | _ => none

/-- `float(str)` on a whitespace-stripped string: sign, decimal digits with
an optional point, optional exponent.  `inf`/`nan` literals are outside the
rational model (they never let `_parse_date` succeed either way). -/
def floatOfParts (intPart fracPart : String) : Option Rat :=
  if intPart.data.all Char.isDigit ∧ fracPart.data.all Char.isDigit ∧
      (intPart ≠ "" ∨ fracPart ≠ "") then
    let ipVal : Nat := intPart.data.foldl (fun acc c => 10 * acc + (c.toNat - 48)) 0
    let fpVal : Nat := fracPart.data.foldl (fun acc c => 10 * acc + (c.toNat - 48)) 0
    some (mkRat ((ipVal * 10 ^ fracPart.length + fpVal : Nat) : Int) (10 ^ fracPart.length))
  else none

/-- `q * 10^e` for an integer exponent, via `mkRat` (see `ratTimes10`). -/
def ratScale10 (q : Rat) (e : Int) : Rat :=
  if 0 ≤ e then mkRat (q.num * ((10 ^ e.toNat : Nat) : Int)) q.den
  else mkRat q.num (q.den * 10 ^ (-e).toNat)

/-- Negation via `mkRat`, avoiding irreducible field operations. -/
def ratNeg (q : Rat) : Rat := mkRat (-q.num) q.den

/-- Unsigned mantissa (with optional decimal point) of a float literal. -/
def floatOfMantissa (s : String) : Option Rat :=
  match splitChar '.' s with
  | [ip] => floatOfParts ip ""
  | [ip, fp] => floatOfParts ip fp
  | _ => none

/-- Signed mantissa with optional exponent: full `float(str)` grammar
(the exponent marker `e` is case-insensitive). -/
def pyFloatOfStr (s : String) : Option Rat :=
  let t := String.mk ((pyStrip s).data.map (fun c => if c = 'E' then 'e' else c))
  let signed : String → Option Rat := fun u =>
    match u.data with
    | '-' :: cs => (floatOfMantissa (String.mk cs)).map ratNeg
    | '+' :: cs => floatOfMantissa (String.mk cs)
    | _ => floatOfMantissa u
  let expPart : String → Option Int := fun u =>
    match u.data with
    | '-' :: cs => (intOfDigits cs).map (fun n => -(n : Int))
    | '+' :: cs => (intOfDigits cs).map (fun n => (n : Int))
    | cs => (intOfDigits cs).map (fun n => (n : Int))
  match splitChar 'e' t with
  | [m] => signed m
  | [m, e] => do pure (ratScale10 (← signed m) (← expPart e))
  | _ => none

/-- `float(val)` for dynamic values: strings are parsed, ints and bools
widen, floats pass through, everything else raises (modelled as `none`). -/
def pyFloatOf : Value → Option Rat
  | .vStr s => pyFloatOfStr s
  | .vInt n => some (n : Rat)
  | .vFloat q => some q
  | .vBool b => some (if b then 1 else 0)
  | _ => none

/-- `_coerce_float` (main.py:107-111): `float(val) if val not in (None, "")
else None`, any exception yielding `None`. -/
def coerce_float : Value → Option Rat
  | .vNone => none
  | .vStr s => if s = "" then none else pyFloatOfStr s
  | v => pyFloatOf v

/-- The numeric fields a `strptime` directive can set. -/
inductive TField where
  | fMo | fDa | fHo | fMi | fSe
  deriving DecidableEq, Repr

/-- One `strptime` directive: a literal character, a four-digit year
(`%Y`), a one-or-two-digit numeric field (`%m`/`%d`/`%H`/`%M`/`%S`), or a
whitespace run (format whitespace matches one or more input whitespace). -/
inductive FTok where
  | lit (c : Char)
  | y4
  | num (f : TField)
  | ws
  deriving Repr

/-- Partially filled time tuple; `strptime` defaults are 1900-01-01 00:00:00. -/
structure TMrec where
  y : Nat := 1900
  mo : Nat := 1
  da : Nat := 1
  ho : Nat := 0
  mi : Nat := 0
  se : Nat := 0
  deriving Repr

/-- Store a parsed numeric field. -/
def TMrec.setF (tm : TMrec) : TField → Nat → TMrec
  | .fMo, v => { tm with mo := v }
  | .fDa, v => { tm with da := v }
  | .fHo, v => { tm with ho := v }
  | .fMi, v => { tm with mi := v }
  | .fSe, v => { tm with se := v }

/-- Numeric value of a decimal digit character. -/
def digitVal (c : Char) : Nat := c.toNat - 48

/-- Run a format against the input characters.  Two-digit fields are
greedy with backtracking (`\d{1,2}`), `%Y` is exactly four digits, and the
whole input must be consumed (`strptime` rejects unconverted data).
Numeric class restrictions of the real regexes (e.g. `%m` rejecting `13`
at match time) are deferred to `tmValid`; for these six formats the two
pipelines fail on exactly the same inputs, since a field value rejected by
the character class can never be re-split against a non-digit separator. -/
def runFmt : List FTok → List Char → TMrec → Option TMrec
  | [], [], tm => some tm
  | [], _ :: _, _ => none
  | .lit c :: ts, x :: xs, tm => if x = c then runFmt ts xs tm else none
  | .lit _ :: _, [], _ => none
  | .ws :: ts, x :: xs, tm =>
      if x.isWhitespace then runFmt ts (xs.dropWhile Char.isWhitespace) tm else none
  | .ws :: _, [], _ => none
  | .y4 :: ts, a :: b :: c :: d :: xs, tm =>
      if a.isDigit ∧ b.isDigit ∧ c.isDigit ∧ d.isDigit then
        runFmt ts xs { tm with
          y := 1000 * digitVal a + 100 * digitVal b + 10 * digitVal c + digitVal d }
      else none
  | .y4 :: _, _, _ => none
  | .num f :: ts, a :: b :: xs, tm =>
      if a.isDigit then
        if b.isDigit then
          (runFmt ts xs (tm.setF f (10 * digitVal a + digitVal b))).orElse
            (fun _ => runFmt ts (b :: xs) (tm.setF f (digitVal a)))
        else runFmt ts (b :: xs) (tm.setF f (digitVal a))
      else none
  | .num f :: ts, [a], tm =>
      if a.isDigit then runFmt ts [] (tm.setF f (digitVal a)) else none
  | .num _ :: _, [], _ => none

/-- Gregorian leap year. -/
def isLeap (y : Nat) : Bool := y % 4 = 0 ∧ (y % 100 ≠ 0 ∨ y % 400 = 0)

/-- Days in a month. -/
def daysInMonth (y m : Nat) : Nat :=
  if m = 2 then (if isLeap y then 29 else 28)
  else if m = 4 ∨ m = 6 ∨ m = 9 ∨ m = 11 then 30
  else 31

/-- `datetime(...)` construction: the range checks it performs
(`MINYEAR ≤ year ≤ MAXYEAR`, month, day-of-month, time bounds). -/
def tmValid (tm : TMrec) : Option DateTime :=
  if 1 ≤ tm.y ∧ tm.y ≤ 9999 ∧ 1 ≤ tm.mo ∧ tm.mo ≤ 12 ∧
      1 ≤ tm.da ∧ tm.da ≤ daysInMonth tm.y tm.mo ∧
      tm.ho ≤ 23 ∧ tm.mi ≤ 59 ∧ tm.se ≤ 59 then
    some ⟨tm.y, tm.mo, tm.da, tm.ho, tm.mi, tm.se⟩
  else none

/-- The `HH:MM:SS` directive tail. -/
def timeToks : List FTok :=
  [.ws, .num .fHo, .lit ':', .num .fMi, .lit ':', .num .fSe]

/-- The six formats of `_parse_date`, in source order:
`%Y-%m-%d`, `%Y/%m/%d`, `%Y-%m-%d %H:%M:%S`, `%Y/%m/%d %H:%M:%S`,
`%m/%d/%Y`, `%m/%d/%Y %H:%M:%S`. -/
def dateFormats : List (List FTok) :=
  [ [.y4, .lit '-', .num .fMo, .lit '-', .num .fDa],
    [.y4, .lit '/', .num .fMo, .lit '/', .num .fDa],
    [.y4, .lit '-', .num .fMo, .lit '-', .num .fDa] ++ timeToks,
    [.y4, .lit '/', .num .fMo, .lit '/', .num .fDa] ++ timeToks,
    [.num .fMo, .lit '/', .num .fDa, .lit '/', .y4],
    [.num .fMo, .lit '/', .num .fDa, .lit '/', .y4] ++ timeToks ]

/-- `datetime.strptime(s, fmt)` for one of the six formats: regex match
then `datetime` construction. -/
def strptimeFmt (f : List FTok) (s : String) : Option DateTime :=
  (runFmt f s.data {}).bind tmValid

/-- The format loop of `_parse_date`: first format that parses wins. -/
def tryFormats : List (List FTok) → String → Option DateTime
  | [], _ => none
  | f :: fs, s =>
      match strptimeFmt f s with
      | some d => some d
      | none => tryFormats fs s

/-- Civil date from days since 1970-01-01 (proleptic Gregorian). -/
def civilFromDays (z0 : Int) : Nat × Nat × Nat :=
  let z := z0 + 719468
  let era := (if 0 ≤ z then z else z - 146096) / 146097
  let doe := z - era * 146097
  let yoe := (doe - doe / 1460 + doe / 36524 - doe / 146096) / 365
  let y := yoe + era * 400
  let doy := doe - (365 * yoe + yoe / 4 - yoe / 100)
  let mp := (5 * doy + 2) / 153
  let da := doy - (153 * mp + 2) / 5 + 1
  let mo := mp + (if mp < 10 then 3 else -9)
  let y := y + (if mo ≤ 2 then 1 else 0)
  (y.toNat, mo.toNat, da.toNat)

/-- `datetime.utcfromtimestamp` on a positive epoch-seconds value
(sub-second precision truncated, see `DateTime`). -/
def utcFromTimestamp (q : Rat) : DateTime :=
  let secs : Int := q.floor
  let days : Int := secs / 86400
  let sod : Nat := (secs - days * 86400).toNat
  let ymd := civilFromDays days
  ⟨ymd.1, ymd.2.1, ymd.2.2, sod / 3600, sod % 3600 / 60, sod % 60⟩

/-- `_parse_date` (main.py:114-132).  Falsy values yield `None`; datetimes
pass through; otherwise the six formats are tried in order on `str(val)`;
failing that, `float(val)` is accepted as Unix-epoch seconds only when
`num > 1e9 and num < 2e10`; everything else yields `None` and no input
raises. -/
def parse_date (val : Value) : Option DateTime :=
  if !val.isTruthy then none
  else match val with
    | .vDT d => some d
    | _ =>
      match tryFormats dateFormats val.pyStr with
      | some d => some d
      | none =>
        match pyFloatOf val with
        | some num =>
            if (1000000000 : Rat) < num ∧ num < (20000000000 : Rat) then
              some (utcFromTimestamp num)
            else none
        | none => none

/-! ### Data model (schemas.py) and the document store -/

/-- `Catalog` (schemas.py:14-22).  `imported_at` has pydantic default
`utcnow`, modelled by passing the ambient time explicitly. -/
structure Catalog where
  name : String
  source : String := "lightroom"
  path : Option String := none
  imported_at : DateTime
  deriving Repr

/-- `Exif` (schemas.py:24-30). -/
structure Exif where
  camera : Option String := none
  lens : Option String := none
  iso : Option Int := none
  shutter : Option String := none
  aperture : Option Rat := none
  focal_length : Option Rat := none
  deriving Repr

/-- `Photo` (schemas.py:32-64).  The `rating` bound (`ge=0, le=5`) is a
pydantic validation constraint, enforced at the construction sites below
(`ratingCheck`); `import_date`'s pydantic default factory is irrelevant to
every construction site, which always passes the field. -/
structure Photo where
  filename : String
  path : Option String := none
  catalog_id : Option String := none
  title : Option String := none
  caption : Option String := none
  keywords : List String := []
  rating : Option Int := none
  label : Option String := none
  flagged : Bool := false
  capture_date : Option DateTime := none
  import_date : Option DateTime := none
  width : Option Int := none
  height : Option Int := none
  exif : Option Exif := none
  thumbnail_url : Option String := none
  extra : List (String × Value) := []
  deriving Repr

/-- The Mongo document store visible to this code: the `catalog` and
`photo` collections in insertion order, keyed by their assigned ids
(opaque strings; the model numbers them from a counter). -/
structure Store where
  catalogs : List (String × Catalog) := []
  photos : List (String × Photo) := []
  nextId : Nat := 0

/-- The empty document store. -/
def emptyStore : Store := {}

/-- `create_document("catalog", ...)`: insert and return the new id. -/
def createCatalog (st : Store) (c : Catalog) : String × Store :=
  (toString st.nextId,
   { st with catalogs := st.catalogs ++ [(toString st.nextId, c)], nextId := st.nextId + 1 })

/-- `create_document("photo", ...)`: insert and return the new id. -/
def createPhoto (st : Store) (p : Photo) : String × Store :=
  (toString st.nextId,
   { st with photos := st.photos ++ [(toString st.nextId, p)], nextId := st.nextId + 1 })

/-- Python truthiness of an optional string (`None` and `""` falsy). -/
def optTruthy : Option String → Bool
  | none => false
  | some s => !s.isEmpty

/-- Python `a or d` where `a` is an optional string and `d` a string. -/
def pyOrStr (a : Option String) (d : String) : String :=
  match a with
  | some s => if s.isEmpty then d else s
  | none => d

/-- Python `a or b` on optional strings (each modelling `None`-or-`str`). -/
def pyOrOS (a b : Option String) : Option String :=
  match a with
  | some s => if s.isEmpty then b else a
  | none => b

/-- An optional string viewed as the dynamic value it came from. -/
def osVal : Option String → Value
  | none => .vNone
  | some s => .vStr s

/-- `ensure_catalog_id` (main.py:144-150): `None` for a falsy name, else a
case-sensitive exact `find_one` by name returning the existing id, else
`create_document` of a new `Catalog(name=cat, source=src or "upload")`. -/
def ensure_catalog_id (now : DateTime) (st : Store) (cat src : Option String) :
    Store × Option String :=
  match cat with
  | none => (st, none)
  | some c =>
      if c.isEmpty then (st, none)
      else
        match st.catalogs.find? (fun kc => kc.2.name == c) with
        | some kc => (st, some kc.1)
        | none =>
            let (i, st') := createCatalog st
              { name := c, source := pyOrStr src "upload", path := none, imported_at := now }
            (st', some i)

/-! ### Field validation at `Photo(...)` construction (pydantic v2) -/

/-- A `str` field: only native strings validate. -/
def asStr : Value → Except Unit String
  | .vStr s => .ok s
  | _ => .error ()

/-- An `Optional[str]` field. -/
def asOptStr : Value → Except Unit (Option String)
  | .vNone => .ok none
  | .vStr s => .ok (some s)
  | _ => .error ()

/-- A `List[str]` field. -/
def asStrList : Value → Except Unit (List String)
  | .vList xs => xs.mapM asStr
  | _ => .error ()

/-- A `Dict[str, Any]` field. -/
def asDict : Value → Except Unit (List (String × Value))
  | .vDict kvs => .ok kvs
  | _ => .error ()

/-- The `rating` constraint `ge=0, le=5` (schemas.py:47). -/
def ratingCheck : Option Int → Except Unit (Option Int)
  | none => .ok none
  | some v => if 0 ≤ v ∧ v ≤ 5 then .ok (some v) else .error ()

/-- Keyword splitting of the JSON parser: split on commas, strip, drop
empties (main.py:169). -/
def splitCommaTrim (s : String) : List String :=
  ((splitChar ',' s).map pyStrip).filter (fun t => !t.isEmpty)

/-- The JSON-record parser body of `ingest_upload` (main.py:165-196): one
record of the `records` list, turned into a `Photo`.  Any exception
(non-dict record, pydantic validation failure) aborts the whole upload
with a 400 `JSON parse error` at the call site. -/
def parseJsonRecord (now : DateTime) (cid : Option String) (recV : Value) :
    Except Unit Photo := do
  let rec0 ← asDict recV
  let kws0 := dget rec0 "keywords"
  let kwsV := match kws0 with
    | .vStr s => Value.vList ((splitCommaTrim s).map Value.vStr)
    | v => v
  let exifD ← asDict (pyOr (dget rec0 "exif") (.vDict []))
  let filename ← asStr (pyOr (pyOr (dget rec0 "filename") (dget rec0 "name")) (.vStr ""))
  let path ← asOptStr (dget rec0 "path")
  let catalog_id ← asOptStr (pyOr (dget rec0 "catalog_id") (osVal cid))
  let title ← asOptStr (dget rec0 "title")
  let caption ← asOptStr (dget rec0 "caption")
  let keywords ← asStrList (pyOr kwsV (.vList []))
  let rating ← ratingCheck (coerce_int (dget rec0 "rating"))
  let label ← asOptStr (dget rec0 "label")
  let camera ← asOptStr (dget exifD "camera")
  let lens ← asOptStr (dget exifD "lens")
  let shutter ← asOptStr (dget exifD "shutter")
  let thumbnail_url ← asOptStr (dget rec0 "thumbnail_url")
  let extra ← asDict (pyOr (dget rec0 "extra") (.vDict []))
  pure
    { filename, path, catalog_id, title, caption, keywords, rating, label,
      flagged := (coerce_bool (dget rec0 "flagged")).getD false,
      capture_date := parse_date (dget rec0 "capture_date"),
      import_date := some ((parse_date (dget rec0 "import_date")).getD now),
      width := coerce_int (dget rec0 "width"),
      height := coerce_int (dget rec0 "height"),
      exif := some
        { camera, lens, iso := coerce_int (dget exifD "iso"),
          shutter, aperture := coerce_float (dget exifD "aperture"),
          focal_length := coerce_float (dget exifD "focal_length") },
      thumbnail_url, extra }

/-- The per-record loop of the JSON branch: first failure aborts (the
exception escapes the `for` inside the `try`). -/
def parseJsonRecords (now : DateTime) (cid : Option String) :
    List Value → Except Unit (List Photo)
  | [] => .ok []
  | r :: rs =>
      match parseJsonRecord now cid r with
      | .error e => .error e
      | .ok p =>
          match parseJsonRecords now cid rs with
          | .error e => .error e
          | .ok ps => .ok (p :: ps)

/-- One CSV row: the `csv.DictReader` mapping from header names to cell
strings (the reader itself is an external collaborator). -/
abbrev Row := List (String × String)

/-- `row.get(k)` on a CSV row. -/
def rget (row : Row) (k : String) : Option String :=
  (row.find? (fun kv => kv.1 == k)).map (fun kv => kv.2)

/-- The `rating` cell coercion of the CSV branch (main.py:219). -/
def csvRating (row : Row) : Option Int :=
  coerce_int (osVal (pyOrOS (rget row "rating") (rget row "Rating")))

/-- The CSV-row parser body of `ingest_upload` (main.py:206-237), minus
the pydantic `rating` bound, which `parseCsvRow` checks: every other field
of a CSV row is well-typed by construction. -/
def buildCsvPhoto (now : DateTime) (cid : Option String) (row : Row) : Photo :=
  let kws := pyOrStr (pyOrOS (rget row "keywords") (rget row "Tags")) ""
  let keywords :=
    ((splitChar ',' (String.mk (kws.data.map (fun c => if c = ';' then ',' else c)))).map
      pyStrip).filter (fun t => !t.isEmpty)
  { filename := pyOrStr (pyOrOS (pyOrOS (rget row "filename") (rget row "name"))
      (rget row "FileName")) "",
    path := pyOrOS (rget row "path") (rget row "Path"),
    catalog_id := cid,
    title := pyOrOS (rget row "title") (rget row "Title"),
    caption := pyOrOS (rget row "caption") (rget row "Caption"),
    keywords,
    rating := csvRating row,
    label := pyOrOS (rget row "label") (rget row "Label"),
    flagged := (coerce_bool (osVal (pyOrOS (rget row "flagged") (rget row "Flagged")))).getD false,
    capture_date := parse_date (osVal (pyOrOS (rget row "capture_date") (rget row "CaptureDate"))),
    import_date := some ((parse_date (osVal (pyOrOS (rget row "import_date")
      (rget row "ImportDate")))).getD now),
    width := coerce_int (osVal (pyOrOS (rget row "width") (rget row "Width"))),
    height := coerce_int (osVal (pyOrOS (rget row "height") (rget row "Height"))),
    exif := some
      { camera := pyOrOS (rget row "camera") (rget row "Camera"),
        lens := pyOrOS (rget row "lens") (rget row "Lens"),
        iso := coerce_int (osVal (pyOrOS (rget row "iso") (rget row "ISO"))),
        aperture := coerce_float (osVal (pyOrOS (rget row "aperture") (rget row "Aperture"))),
        shutter := pyOrOS (rget row "shutter") (rget row "Shutter"),
        focal_length := coerce_float (osVal (pyOrOS (rget row "focal_length")
          (rget row "FocalLength"))) },
    thumbnail_url := pyOrOS (rget row "thumbnail_url") (rget row "ThumbnailURL"),
    extra := [] }

/-- One CSV row through `Photo(...)`: the only pydantic constraint a CSV
row can violate is the rating bound; a violation raises inside the `try`
and aborts the whole upload as a 400 `CSV parse error`. -/
def parseCsvRow (now : DateTime) (cid : Option String) (row : Row) : Except Unit Photo :=
  let p := buildCsvPhoto now cid row
  match ratingCheck p.rating with
  | .ok _ => .ok p
  | .error e => .error e

/-- The per-row loop of the CSV branch: first failure aborts the batch. -/
def parseCsvRows (now : DateTime) (cid : Option String) :
    List Row → Except Unit (List Photo)
  | [] => .ok []
  | r :: rs =>
      match parseCsvRow now cid r with
      | .error e => .error e
      | .ok p =>
          match parseCsvRows now cid rs with
          | .error e => .error e
          | .ok ps => .ok (p :: ps)

/-! ### The upload and structured-ingest handlers -/

/-- An HTTP error response (`HTTPException`); details of dynamic suffixes
(`f"...: {e}"`) are elided, keeping the fixed prefix. -/
structure HTTPError where
  status : Nat
  detail : String
  deriving DecidableEq, Repr

/-- The success payload of the ingest endpoints. -/
structure IngestResponse where
  inserted : Nat
  ids : List String
  deriving DecidableEq, Repr

/-- The content handed to `ingest_upload` after transport: the outcome of
`json.loads` for a JSON file, the `csv.DictReader` rows for a CSV file, or
an unrecognized file kind (both decoders are external stdlib
collaborators, modelled by their outcome). -/
inductive UploadContent where
  | jsonFile (payload : Except Unit Value)
  | csvFile (rows : List Row)
  | otherFile

/-- Top-level shape dispatch of the JSON branch (main.py:159-164): a dict
with an `items` key is iterated at that key (Python iteration of a
string/dict yields characters/keys), a list is iterated directly, and
anything else raises 400 `Invalid JSON structure`. -/
def jsonRecords : Value → Except HTTPError (List Value)
  | .vDict kvs =>
      if (kvs.find? (fun kv => kv.1 == "items")).isSome then
        match dget kvs "items" with
        | .vList xs => .ok xs
        | .vStr s => .ok (s.data.map (fun c => .vStr (String.singleton c)))
        | .vDict kvs2 => .ok (kvs2.map (fun kv => .vStr kv.1))
        | _ => .error ⟨400, "JSON parse error"⟩
      else .error ⟨400, "Invalid JSON structure"⟩
  | .vList xs => .ok xs
  | _ => .error ⟨400, "Invalid JSON structure"⟩

/-- The insertion loop shared by the handlers: persist each record in
input order, accumulating the assigned ids. -/
def insertPhotos : Store → List Photo → Store × List String
  | st, [] => (st, [])
  | st, p :: ps =>
      let r := insertPhotos (createPhoto st p).2 ps
      (r.1, (createPhoto st p).1 :: r.2)

/-- Tail of `ingest_upload` (main.py:243-251): empty parse result is a 400
`No items to ingest`, otherwise everything is inserted. -/
def finishInsert (st : Store) (items : List Photo) : Store × Except HTTPError IngestResponse :=
  if items.isEmpty then (st, .error ⟨400, "No items to ingest"⟩)
  else
    ((insertPhotos st items).1,
     .ok ⟨(insertPhotos st items).2.length, (insertPhotos st items).2⟩)

/-- `ingest_upload` (main.py:135-251).  The catalog find-or-create runs
before any parsing; the JSON branch re-raises its own `HTTPException`
(`Invalid JSON structure`) and wraps every other exception as 400
`JSON parse error`; the CSV branch wraps every exception as 400
`CSV parse error`; unknown kinds are 415. -/
def ingest_upload (now : DateTime) (st : Store) (catalog source : Option String)
    (content : UploadContent) : Store × Except HTTPError IngestResponse :=
  let st1 := (ensure_catalog_id now st catalog source).1
  let cid := (ensure_catalog_id now st catalog source).2
  match content with
  | .jsonFile (.error _) => (st1, .error ⟨400, "JSON parse error"⟩)
  | .jsonFile (.ok payload) =>
      match jsonRecords payload with
      | .error e => (st1, .error e)
      | .ok recs =>
          match parseJsonRecords now cid recs with
          | .error _ => (st1, .error ⟨400, "JSON parse error"⟩)
          | .ok items => finishInsert st1 items
  | .csvFile rows =>
      match parseCsvRows now cid rows with
      | .error _ => (st1, .error ⟨400, "CSV parse error"⟩)
      | .ok items => finishInsert st1 items
  | .otherFile => (st1, .error ⟨415, "Unsupported file type. Use JSON or CSV."⟩)

/-- The body of the structured-ingest endpoint (`PhotoIngest`,
main.py:61-64): items arrive already validated by FastAPI. -/
structure PhotoIngest where
  catalog : Option String := none
  source : Option String := some "lightroom"
  items : List Photo

/-- `ingest_photos` (main.py:66-84): inline find-or-create by name (note:
`Catalog(source=payload.source)` requires a string source — an explicit
`null` source with a new catalog name is an uncaught validation error,
surfaced as a 500), then per-item catalog back-fill only when the item
carries no truthy `catalog_id` of its own, then best-effort insertion. -/
def ingest_photos (now : DateTime) (st : Store) (payload : PhotoIngest) :
    Store × Except HTTPError IngestResponse :=
  let resolved : Except HTTPError (Store × Option String) :=
    match payload.catalog with
    | none => .ok (st, none)
    | some c =>
        if c.isEmpty then .ok (st, none)
        else
          match st.catalogs.find? (fun kc => kc.2.name == c) with
          | some kc => .ok (st, some kc.1)
          | none =>
              match payload.source with
              | none => .error ⟨500, "Internal Server Error"⟩
              | some src =>
                  let (i, st') := createCatalog st
                    { name := c, source := src, path := none, imported_at := now }
                  .ok (st', some i)
  match resolved with
  | .error e => (st, .error e)
  | .ok (st1, cid) =>
      let items := payload.items.map (fun item =>
        if optTruthy cid && !(optTruthy item.catalog_id) then
          { item with catalog_id := cid }
        else item)
      ((insertPhotos st1 items).1,
       .ok ⟨(insertPhotos st1 items).2.length, (insertPhotos st1 items).2⟩)

/-! ### Fetch-by-id -/

/-- Hexadecimal digit. -/
def isHexDigit (c : Char) : Bool :=
  c.isDigit || ('a' ≤ c ∧ c ≤ 'f') || ('A' ≤ c ∧ c ≤ 'F')

/-- `bson.ObjectId(s)` succeeds exactly on 24-character hex strings. -/
def validObjectId (s : String) : Bool :=
  s.length == 24 && s.data.all isHexDigit

/-- The serialized single-photo response: `_id` popped into `id`. -/
structure PhotoOut where
  id : String
  doc : Photo

/-- The `try` body of `get_photo` (main.py:481-486): `ObjectId(photo_id)`
raises `InvalidId` on malformed input (modelled as a non-HTTP error
value), a missing document raises `HTTPException(404, "Not found")`, and a
found document is serialized. -/
def get_photo_inner (photos : List (String × Photo)) (photo_id : String) :
    Except HTTPError PhotoOut :=
  if validObjectId photo_id then
    match photos.find? (fun kp => kp.1 == photo_id) with
    | some kp => .ok ⟨kp.1, kp.2⟩
    | none => .error ⟨404, "Not found"⟩
  else .error ⟨0, "bson InvalidId"⟩

/-- `get_photo` (main.py:479-488).  The bare `except Exception` catches
both the `InvalidId` error *and* the handler's own `HTTPException(404)`
raised inside the `try` (FastAPI's `HTTPException` subclasses
`Exception`), replacing each with 400 `Invalid id`. -/
def get_photo (photos : List (String × Photo)) (photo_id : String) :
    Except HTTPError PhotoOut :=
  match get_photo_inner photos photo_id with
  | .ok d => .ok d
  | .error _ => .error ⟨400, "Invalid id"⟩

/-! ### The relational-catalog (`.lrcat`) row parser -/

/-- Strip leading and trailing `'.'` characters (`str.strip('.')`). -/
def stripDots (s : String) : String :=
  String.mk (((s.data.dropWhile (· == '.')).reverse.dropWhile (· == '.')).reverse)

/-- `x or ''` followed by a `str` method: falsy values collapse to `""`;
a truthy non-string would raise `AttributeError` (modelled as error). -/
def asStrOrBlank (v : Value) : Except Unit String :=
  if v.isTruthy then asStr v else .ok ""

/-- `os.path.join(a, b)` for the two-argument, plain-path uses here. -/
def osJoin (a b : String) : String :=
  if b.data.head? == some '/' then b
  else if a.data.getLast? == some '/' then a ++ b
  else a ++ "/" ++ b

/-- `build_path` (main.py:326-333). -/
def build_path (row : List (String × Value)) : Except Unit (Option String) := do
  let baseV := pyOr (dget row "baseName") (.vStr "")
  let extV := pyOr (dget row "extension") (.vStr "")
  let name := if extV.isTruthy then baseV.pyStr ++ "." ++ extV.pyStr else baseV.pyStr
  let pfrV := pyOr (dget row "pathFromRoot") (.vStr "")
  if pfrV.isTruthy then do
    let pfr ← asStr pfrV
    pure (some (osJoin pfr name))
  else pure (if name.isEmpty then none else some name)

/-- The row-to-`Photo` mapping of `ingest_lrcat` (main.py:336-362); rows
arrive from the external SQLite reader as column-name/value mappings.
This loop runs outside any `try`, so a pydantic failure (out-of-range
rating, non-string label source, ...) is an uncaught exception (500). -/
def lrcatRowToPhoto (now : DateTime) (cid : String) (row : List (String × Value)) :
    Except Unit Photo := do
  let base := (pyOr (dget row "baseName") (.vStr "")).pyStr
  let ext ← asStrOrBlank (dget row "extension")
  let filename := stripDots (base ++ "." ++ stripDots ext)
  let path ← build_path row
  let rating ← ratingCheck (coerce_int (dget row "rating"))
  let label : Option String :=
    match dget row "colorLabels" with
    | .vNone => none
    | .vStr "" => none
    | v => some (pyLower (pyStrip ((splitChar ',' v.pyStr).headD "")))
  let fnField ← asStr (if filename.isEmpty then pyOr (dget row "baseName") (.vStr "")
    else .vStr filename)
  pure
    { filename := fnField, path, catalog_id := some cid,
      title := none, caption := none, keywords := [],
      rating, label,
      flagged := (coerce_bool (dget row "pick")).getD false,
      capture_date := parse_date (dget row "captureTime"),
      import_date := some now,
      width := none, height := none,
      exif := some {},
      thumbnail_url := none,
      extra := [("lrcat_file_id", dget row "file_id")] }

/-! ### Query builder and its evaluation against stored records -/

/-- `datetime.fromisoformat` on the common `YYYY-MM-DD[ HH:MM:SS]` forms
(with `' '` or `'T'` separator); richer ISO accepted by newer Python
versions is not modelled (external stdlib; no claim depends on it). -/
def fromisoformat (s : String) : Option DateTime :=
  let d4 : List Char → Bool := fun cs => cs.length == 4 && cs.all Char.isDigit
  let d2 : List Char → Bool := fun cs => cs.length == 2 && cs.all Char.isDigit
  let toN : List Char → Nat := fun cs => cs.foldl (fun acc c => 10 * acc + digitVal c) 0
  match splitChar '-' (String.mk (s.data.take 10)) with
  | [ys, ms, ds] =>
      if d4 ys.data && d2 ms.data && d2 ds.data then
        let rest := s.data.drop 10
        match rest with
        | [] => tmValid { y := toN ys.data, mo := toN ms.data, da := toN ds.data }
        | sep :: t =>
            if (sep == ' ' || sep == 'T') then
              match splitChar ':' (String.mk t) with
              | [hs, mis, ss] =>
                  if d2 hs.data && d2 mis.data && d2 ss.data then
                    tmValid { y := toN ys.data, mo := toN ms.data, da := toN ds.data,
                              ho := toN hs.data, mi := toN mis.data, se := toN ss.data }
                  else none
              | _ => none
            else none
      else none
  | _ => none

/-- The Mongo query document built by `build_search_query`
(main.py:370-437): one optional entry per filter, in source form (the
label/camera/lens/q entries keep their raw regex pattern strings). -/
structure SearchQuery where
  qPattern : Option String := none
  rating : Option Int := none
  labelPattern : Option String := none
  flagged : Option Bool := none
  cameraPattern : Option String := none
  lensPattern : Option String := none
  isoGte : Option Int := none
  isoLte : Option Int := none
  captureGte : Option DateTime := none
  captureLte : Option DateTime := none
  importGte : Option DateTime := none
  importLte : Option DateTime := none
  deriving Repr

/-- `None`-or-falsy collapse used by the `if q:`-style guards. -/
def truthyOpt : Option String → Option String
  | none => none
  | some s => if s.isEmpty then none else some s

/-- `build_search_query` (main.py:370-437).  Note the label filter
interpolates the raw label into an anchored case-insensitive regex
(`f"^‹label›$"`, `$options: "i"`) without escaping; malformed date bounds
are silently dropped by the `try/except` around `fromisoformat`. -/
def build_search_query (q : Option String) (rating : Option Int) (label : Option String)
    (flagged : Option Bool) (camera lens : Option String) (min_iso max_iso : Option Int)
    (min_capture_date max_capture_date min_import_date max_import_date : Option String) :
    SearchQuery :=
  { qPattern := truthyOpt q,
    rating := rating,
    labelPattern := (truthyOpt label).map (fun l => "^" ++ l ++ "$"),
    flagged := flagged,
    cameraPattern := truthyOpt camera,
    lensPattern := truthyOpt lens,
    isoGte := min_iso,
    isoLte := max_iso,
    captureGte := (truthyOpt min_capture_date).bind fromisoformat,
    captureLte := (truthyOpt max_capture_date).bind fromisoformat,
    importGte := (truthyOpt min_import_date).bind fromisoformat,
    importLte := (truthyOpt max_import_date).bind fromisoformat }

/-- Contiguous-run containment of one character list in another. -/
def containsRun (needle : List Char) : List Char → Bool
  | [] => needle.isEmpty
  | c :: t => needle.isPrefixOf (c :: t) || containsRun needle t

/-- Case-insensitive substring containment: the semantics of an
unanchored `$options: "i"` regex whose pattern is metacharacter-free
(the free-text and camera/lens filters; no claim exercises
metacharacters there). -/
def ciSubstr (needle hay : String) : Bool :=
  containsRun ((pyLower needle).data) ((pyLower hay).data)

/-- Matcher for the regex body between the anchors: literal characters
match case-insensitively and `'.'` matches any character but newline —
the exact PCRE fragment reachable from the label filter for labels built
of literals and `'.'`. -/
def bodyMatch : List Char → List Char → Bool
  | [], [] => true
  | p :: ps, c :: cs =>
      (if p = '.' then c != '\n' else pyLowerChar p == pyLowerChar c) && bodyMatch ps cs
  | _, _ => false

/-- Whole-string matching of an anchored pattern `^body$` (the shape the
label filter emits), case-insensitively. -/
def anchorMatch (pat s : String) : Bool :=
  match pat.data with
  | '^' :: rest =>
      if rest.getLast? == some '$' then bodyMatch rest.dropLast s.data else false
  | _ => false

/-- Chronological comparison of the model datetimes via a mixed-radix
key (all fields are within their calendar bounds at every use site). -/
def DateTime.key (d : DateTime) : Nat :=
  ((((d.year * 13 + d.month) * 32 + d.day) * 24 + d.hour) * 60 + d.minute) * 60 + d.second

/-- `a ≤ b` on datetimes. -/
def dtLe (a b : DateTime) : Bool := a.key ≤ b.key

/-- Mongo evaluation of the built query against one stored photo: a
conjunction over the present entries, with missing/null document fields
failing any present clause, and array fields (`keywords`) matching when
any element matches. -/
def evalQuery (qy : SearchQuery) (p : Photo) : Bool :=
  let textOk := match qy.qPattern with
    | none => true
    | some pat =>
        ciSubstr pat p.filename ||
        (match p.title with | some t => ciSubstr pat t | none => false) ||
        (match p.caption with | some t => ciSubstr pat t | none => false) ||
        p.keywords.any (fun k => ciSubstr pat k)
  let ratingOk := match qy.rating with
    | none => true
    | some r => p.rating == some r
  let labelOk := match qy.labelPattern with
    | none => true
    | some pat => match p.label with | some l => anchorMatch pat l | none => false
  let flaggedOk := match qy.flagged with
    | none => true
    | some b => p.flagged == b
  let cameraOk := match qy.cameraPattern with
    | none => true
    | some pat => match p.exif.bind Exif.camera with
        | some c => ciSubstr pat c | none => false
  let lensOk := match qy.lensPattern with
    | none => true
    | some pat => match p.exif.bind Exif.lens with
        | some c => ciSubstr pat c | none => false
  let isoVal := p.exif.bind Exif.iso
  let isoG := match qy.isoGte with
    | none => true
    | some v => match isoVal with | some i => decide (v ≤ i) | none => false
  let isoL := match qy.isoLte with
    | none => true
    | some v => match isoVal with | some i => decide (i ≤ v) | none => false
  let capG := match qy.captureGte with
    | none => true
    | some v => match p.capture_date with | some d => dtLe v d | none => false
  let capL := match qy.captureLte with
    | none => true
    | some v => match p.capture_date with | some d => dtLe d v | none => false
  let impG := match qy.importGte with
    | none => true
    | some v => match p.import_date with | some d => dtLe v d | none => false
  let impL := match qy.importLte with
    | none => true
    | some v => match p.import_date with | some d => dtLe d v | none => false
  textOk && ratingOk && labelOk && flaggedOk && cameraOk && lensOk &&
    isoG && isoL && capG && capL && impG && impL

/-! ### Spec-side definitions (for refinement comparisons) -/

/-- Boolean coercion as the (amended) spec words describe it: a native
boolean passes through unchanged; otherwise the whitespace-stripped,
lower-cased string form is matched case-insensitively against the
truthy/falsy sets; anything else — including empty or absent input —
yields no value. -/
def specBoolCoercion (v : Value) : Option Bool :=
  match v with
  | .vBool b => some b
  | _ =>
      let t := pyLower (pyStrip v.pyStr)
      if boolTruthy.contains t then some true
      else if boolFalsy.contains t then some false
      else none

/-! ### Helper lemmas -/

theorem exceptBind_eq_ok {α β : Type} (x : Except Unit α) (f : α → Except Unit β) (b : β) :
    (x >>= f) = .ok b ↔ ∃ a, x = .ok a ∧ f a = .ok b := by
  cases x <;> simp [Bind.bind, Except.bind]

theorem ensure_photos_eq (now : DateTime) (st : Store) (cat src : Option String) :
    ((ensure_catalog_id now st cat src).1).photos = st.photos := by
  unfold ensure_catalog_id
  cases cat with
  | none => rfl
  | some c =>
      by_cases hc : c.isEmpty
      · simp [hc]
      · simp only [hc, Bool.false_eq_true, if_false]
        cases hf : st.catalogs.find? (fun kc => kc.2.name == c) <;>
          simp [hf, createCatalog]

theorem insertPhotos_spec (items : List Photo) : ∀ st : Store,
    ((insertPhotos st items).1).photos.map Prod.snd = st.photos.map Prod.snd ++ items ∧
    ((insertPhotos st items).2).length = items.length := by
  induction items with
  | nil => intro st; simp [insertPhotos]
  | cons p ps ih =>
      intro st
      have h := ih (createPhoto st p).2
      simp only [insertPhotos]
      refine ⟨?_, ?_⟩
      · rw [h.1]
        simp [createPhoto]
      · simp [h.2]

/-! ### Claim C1 -/

/-- C1: for fetch-by-id, a malformed identifier yields the 400
`Invalid id` client error as claimed, but a well-formed identifier that
matches no stored record yields the *same* 400 `Invalid id` outcome: the
handler's own `HTTPException(404, "Not found")` is raised inside its
`try` and swallowed by the bare `except Exception`, so the not-found
error never reaches the caller and the two outcomes are not distinct.
Shown on the empty store with a syntactically valid 24-hex identifier. -/
theorem c1_not_found_collapses_to_invalid_id :
    validObjectId "0123456789abcdef01234567" = true ∧
    get_photo [] "0123456789abcdef01234567" = .error ⟨400, "Invalid id"⟩ ∧
    get_photo [] "not-an-objectid" = .error ⟨400, "Invalid id"⟩ := by
  exact ⟨by decide, rfl, rfl⟩

/-! ### Claim C8 -/

/-- C8 counterexample: the input `" true"` (with a leading space) is not a
native boolean, is not empty, and its case-insensitive string form is in
neither set, so by the claim's letter it must yield no value — yet
`_coerce_bool` strips whitespace first and yields `True`. -/
theorem c8_counterexample_strip :
    coerce_bool (.vStr " true") = some true ∧
    boolTruthy.contains (pyLower (Value.pyStr (.vStr " true"))) = false ∧
    boolFalsy.contains (pyLower (Value.pyStr (.vStr " true"))) = false ∧
    (" true" : String).isEmpty = false := by
  refine ⟨rfl, rfl, rfl, rfl⟩

/-- C8 (amended): boolean coercion is total and never raises; native
booleans pass through; otherwise the *whitespace-stripped*, lower-cased
string form of the value decides: in the truthy set → true, falsy set →
false, anything else (including empty or absent input) → no value. -/
theorem c8_bool_coercion_total_spec :
    ∀ v : Value, coerce_bool v = specBoolCoercion v := by
  intro v
  cases v with
  | vStr s =>
      by_cases h : s = ""
      · subst h; rfl
      · simp [coerce_bool, specBoolCoercion, boolStrTest, h, Value.pyStr]
  | vNone => rfl
  | vBool b => rfl
  | vInt n => rfl
  | vFloat q => rfl
  | vList xs => rfl
  | vDict kvs => rfl
  | vDT d => rfl

/-! ### Claim C10 -/

/-- C10: integer coercion is asymmetric on fractional input — a native
float `4.9` truncates toward zero to `4` (and `-4.9` to `-4`), while the
numeric string `"4.9"` yields no value; float coercion always returns a
value (never raises). -/
theorem c10_int_coercion_asymmetric :
    coerce_int (.vFloat (mkRat 49 10)) = some 4 ∧
    coerce_int (.vFloat (mkRat (-49) 10)) = some (-4) ∧
    coerce_int (.vStr "4.9") = none ∧
    ∀ q : Rat, coerce_int (.vFloat q) = some (ratTrunc q) := by
  exact ⟨by decide, by decide, by decide, fun q => rfl⟩

/-! ### Claim C9 -/

/-- C9: catalog resolution is idempotent by name — with a truthy name,
resolving twice in sequence (no concurrent writers) returns the same
identifier both times, the second call performs no write, and the first
call always produces an identifier (finding or creating the catalog). -/
theorem c9_catalog_resolution_idempotent :
    ∀ (now1 now2 : DateTime) (st : Store) (c : String) (src : Option String),
      c ≠ "" →
      (ensure_catalog_id now2 (ensure_catalog_id now1 st (some c) src).1 (some c) src).2
          = (ensure_catalog_id now1 st (some c) src).2 ∧
      (ensure_catalog_id now2 (ensure_catalog_id now1 st (some c) src).1 (some c) src).1
          = (ensure_catalog_id now1 st (some c) src).1 ∧
      ((ensure_catalog_id now1 st (some c) src).2).isSome = true := by
  intro now1 now2 st c src hc
  have hce : c.isEmpty = false := by
    cases hh : c.isEmpty
    · rfl
    · exact absurd ((String.isEmpty_iff c).mp hh) hc
  unfold ensure_catalog_id
  simp only [hce, Bool.false_eq_true, if_false]
  cases hf : st.catalogs.find? (fun kc => kc.2.name == c) with
  | some kc => simp [hf]
  | none =>
      simp [hf, createCatalog, List.find?_append, List.find?]

/-- C9 witness: resolving the fresh name `"A"` twice on the empty store
returns the same identifier both times. -/
theorem c9_witness :
    (ensure_catalog_id ⟨2024, 1, 2, 0, 0, 0⟩
        (ensure_catalog_id ⟨2024, 1, 1, 0, 0, 0⟩ emptyStore (some "A") none).1
        (some "A") none).2
      = (ensure_catalog_id ⟨2024, 1, 1, 0, 0, 0⟩ emptyStore (some "A") none).2 :=
  (c9_catalog_resolution_idempotent ⟨2024, 1, 1, 0, 0, 0⟩ ⟨2024, 1, 2, 0, 0, 0⟩
    emptyStore "A" none (by decide)).1

/-! ### Claim C5 -/

/-- C5 counterexample: the structured ingest endpoint, called with zero
items, returns a success response with zero inserted records and an empty
id list — it does not fail with an empty-input (or any) error. -/
theorem c5_counterexample_structured_zero :
    (ingest_photos ⟨2024, 1, 1, 0, 0, 0⟩ emptyStore
        { catalog := none, source := some "lightroom", items := [] }).2
      = .ok ⟨0, []⟩ := rfl

/-- C5 (amended): only the *upload* path rejects an ingestion that parses
to zero records, with the 400 `No items to ingest` error, whose detail is
distinct from both malformed-input details; the structured ingest endpoint
instead returns success with zero inserted records. -/
theorem c5_empty_input_distinct :
    (∀ (now : DateTime) (st : Store),
      (ingest_photos now st { catalog := none, source := some "lightroom", items := [] }).2
        = .ok ⟨0, []⟩) ∧
    (∀ (now : DateTime) (st : Store) (cat src : Option String),
      (ingest_upload now st cat src (.jsonFile (.ok (.vList [])))).2
        = .error ⟨400, "No items to ingest"⟩) ∧
    (∀ (now : DateTime) (st : Store) (cat src : Option String),
      (ingest_upload now st cat src (.csvFile [])).2
        = .error ⟨400, "No items to ingest"⟩) ∧
    (("No items to ingest" : String) == "Invalid JSON structure") = false ∧
    (("No items to ingest" : String) == "JSON parse error") = false := by
  refine ⟨fun now st => rfl, fun now st cat src => rfl, fun now st cat src => rfl,
    by decide, by decide⟩

/-- C5 witness: the empty-input error at a concrete upload. -/
theorem c5_witness :
    (ingest_upload ⟨2024, 1, 1, 0, 0, 0⟩ emptyStore none none
        (.jsonFile (.ok (.vList [])))).2 = .error ⟨400, "No items to ingest"⟩ :=
  c5_empty_input_distinct.2.1 ⟨2024, 1, 1, 0, 0, 0⟩ emptyStore none none

/-! ### Claim C3 -/

/-- C3 counterexample: an upload with a fresh catalog name and unparsable
JSON fails with the malformed-input error, yet the failed call has
persisted a document — the Catalog created by the find-or-create that
runs before parsing. -/
theorem c3_counterexample_catalog_persisted :
    (ingest_upload ⟨2024, 1, 1, 0, 0, 0⟩ emptyStore (some "X") none
        (.jsonFile (.error ()))).2 = .error ⟨400, "JSON parse error"⟩ ∧
    ((ingest_upload ⟨2024, 1, 1, 0, 0, 0⟩ emptyStore (some "X") none
        (.jsonFile (.error ()))).1).catalogs.length = 1 := ⟨rfl, rfl⟩

/-- C3 (amended): whenever an upload call fails (in particular with the
malformed-input errors of the JSON branch), no Photo record is persisted
by the call — but the catalog find-or-create runs before parsing, so a
Catalog document may already have been persisted. -/
theorem c3_no_photo_persisted_on_error :
    ∀ (now : DateTime) (st : Store) (cat src : Option String)
      (content : UploadContent) (e : HTTPError),
      (ingest_upload now st cat src content).2 = .error e →
      ((ingest_upload now st cat src content).1).photos = st.photos := by
  intro now st cat src content e h
  have hp := ensure_photos_eq now st cat src
  cases content with
  | otherFile => simpa [ingest_upload] using hp
  | jsonFile pl =>
      cases pl with
      | error u => simpa [ingest_upload] using hp
      | ok payload =>
          simp only [ingest_upload] at h ⊢
          cases hr : jsonRecords payload with
          | error e2 => simp [hr, hp]
          | ok recs =>
              simp only [hr] at h ⊢
              cases hp2 : parseJsonRecords now
                  ((ensure_catalog_id now st cat src).2) recs with
              | error e3 => simp [hp2, hp]
              | ok items =>
                  simp only [hp2] at h ⊢
                  by_cases hi : items.isEmpty
                  · simp [finishInsert, hi, hp]
                  · simp [finishInsert, hi] at h
  | csvFile rows =>
      simp only [ingest_upload] at h ⊢
      cases hp2 : parseCsvRows now ((ensure_catalog_id now st cat src).2) rows with
      | error e3 => simp [hp2, hp]
      | ok items =>
          simp only [hp2] at h ⊢
          by_cases hi : items.isEmpty
          · simp [finishInsert, hi, hp]
          · simp [finishInsert, hi] at h

/-- C3 witness: the failed malformed-JSON upload of the counterexample
persisted no Photo record. -/
theorem c3_witness :
    ((ingest_upload ⟨2024, 1, 1, 0, 0, 0⟩ emptyStore (some "X") none
        (.jsonFile (.error ()))).1).photos = emptyStore.photos :=
  c3_no_photo_persisted_on_error ⟨2024, 1, 1, 0, 0, 0⟩ emptyStore (some "X") none
    (.jsonFile (.error ())) ⟨400, "JSON parse error"⟩ rfl

/-! ### Claim C6 -/

/-- C6 counterexample: `-1500000000` has magnitude strictly inside the
open interval `(1e9, 2e10)`, so by the claim's letter it must be accepted
as an epoch timestamp — yet `_parse_date` rejects it: the code tests the
*value* (`num > 1e9 and num < 2e10`), not its magnitude. -/
theorem c6_counterexample_negative_epoch :
    parse_date (.vInt (-1500000000)) = none ∧
    1000000000 < ((-1500000000 : Int)).natAbs ∧
    ((-1500000000 : Int)).natAbs < 20000000000 := by
  refine ⟨by decide, by decide, by decide⟩

/-- C6 (amended): timestamp coercion tries the fixed format list in
order; when none match a numeric value, it is accepted as Unix-epoch
seconds iff the *value itself* (not its magnitude) lies strictly inside
the open interval `(1e9, 2e10)`; no input raises.  In particular the bare
number `1700000000` parses to `2023-11-14 22:13:20` and the bare number
`42` yields no value. -/
theorem c6_epoch_window :
    (∀ n : Int, tryFormats dateFormats (Value.pyStr (.vInt n)) = none →
      ((parse_date (.vInt n)).isSome = true ↔ (1000000000 < n ∧ n < 20000000000))) ∧
    parse_date (.vInt 1700000000) = some ⟨2023, 11, 14, 22, 13, 20⟩ ∧
    parse_date (.vInt 42) = none := by
  refine ⟨?_, by decide, by decide⟩
  intro n h
  by_cases h0 : n = 0
  · subst h0
    simp only [parse_date, Value.isTruthy]
    norm_num
  · have ht : (Value.vInt n).isTruthy = true := by
      simp [Value.isTruthy, h0]
    have hcast : ((1000000000 : Rat) < (n : Rat) ∧ (n : Rat) < (20000000000 : Rat)) ↔
        (1000000000 < n ∧ n < 20000000000) := by
      constructor <;> intro hh <;> exact ⟨by exact_mod_cast hh.1, by exact_mod_cast hh.2⟩
    simp only [parse_date, ht, Bool.not_true, Bool.false_eq_true, if_false, h, pyFloatOf]
    rw [← hcast]
    split_ifs with hcond <;> simp [hcond]

/-- C6 witness: the formats all fail on `"1700000000"` and the epoch
window accepts it. -/
theorem c6_witness :
    tryFormats dateFormats (Value.pyStr (.vInt 1700000000)) = none ∧
    (parse_date (.vInt 1700000000)).isSome = true :=
  ⟨by decide, (c6_epoch_window.1 1700000000 (by decide)).mpr (by decide)⟩

/-! ### Claim C7 -/

/-- Characters with no special meaning inside a PCRE pattern body. -/
def plainRegexChar (c : Char) : Bool :=
  !([Char.ofNat 92, '^', Char.ofNat 36, '.', '|', '?', '*', '+', '(', ')',
     '[', ']', Char.ofNat 123, Char.ofNat 125].contains c)

theorem bodyMatch_plain : ∀ (ps cs : List Char),
    (∀ c ∈ ps, plainRegexChar c = true) →
    (bodyMatch ps cs = true ↔ ps.map pyLowerChar = cs.map pyLowerChar) := by
  intro ps
  induction ps with
  | nil => intro cs _; cases cs <;> simp [bodyMatch]
  | cons p ps ih =>
      intro cs hall
      cases cs with
      | nil => simp [bodyMatch]
      | cons c cs' =>
          have hp : plainRegexChar p = true := hall p (List.mem_cons_self p ps)
          have hpd : p ≠ '.' := by
            intro hdot
            subst hdot
            exact absurd hp (by decide)
          have ihx := ih cs' (fun d hd => hall d (List.mem_cons_of_mem p hd))
          simp only [bodyMatch, hpd, if_false, Bool.and_eq_true, beq_iff_eq, List.map,
            List.cons.injEq]
          rw [ihx]

/-- C7 counterexample: with the label filter `"a.c"`, the built predicate
matches a record whose label is `"abc"`, although `"abc"` is not
case-insensitively equal to `"a.c"` — the label is interpolated into the
regex unescaped, so `.` acts as a wildcard rather than a literal. -/
theorem c7_counterexample_metachar :
    evalQuery (build_search_query none none (some "a.c") none none none none none
        none none none none) { filename := "x", label := some "abc" } = true ∧
    (pyLower "abc" == pyLower "a.c") = false := by
  refine ⟨by decide, by decide⟩

/-- C7 (amended): for a non-empty label containing no regex
metacharacters, the built predicate matches exactly the records whose
label equals the supplied string as a whole value under case-insensitive
comparison; labels containing metacharacters are instead interpreted as
regex syntax (unescaped interpolation). -/
theorem c7_label_anchored_ci_match :
    ∀ (label : String) (p : Photo),
      label ≠ "" →
      (∀ c ∈ label.data, plainRegexChar c = true) →
      (evalQuery (build_search_query none none (some label) none none none none none
          none none none none) p = true
        ↔ ∃ s, p.label = some s ∧ pyLower s = pyLower label) := by
  intro label p hne hplain
  have hle : label.isEmpty = false := by
    cases hh : label.isEmpty
    · rfl
    · exact absurd ((String.isEmpty_iff label).mp hh) hne
  have hdata : ("^" ++ label ++ "$").data = '^' :: (label.data ++ ['$']) := by
    rw [String.data_append, String.data_append]
    rfl
  simp only [evalQuery, build_search_query, truthyOpt, hle, Bool.false_eq_true, if_false,
    Option.map_some', Option.none_bind, Bool.and_true, Bool.true_and]
  cases hl : p.label with
  | none =>
      simp
  | some l =>
      simp only [anchorMatch]
      rw [hdata]
      simp only [List.getLast?_concat, List.dropLast_concat,
        beq_self_eq_true, if_true, Bool.and_true, Bool.true_and]
      rw [bodyMatch_plain label.data l.data hplain]
      constructor
      · intro hm
        exact ⟨l, rfl, by simp only [pyLower]; exact congrArg String.mk hm.symm⟩
      · rintro ⟨s, hs, hlow⟩
        cases hs
        simp only [pyLower] at hlow
        exact (congrArg String.data hlow).symm

/-- C7 witness: the label filter `"red"` matches a record labelled
`"Red"`. -/
theorem c7_witness :
    evalQuery (build_search_query none none (some "red") none none none none none
        none none none none) { filename := "x", label := some "Red" } = true :=
  (c7_label_anchored_ci_match "red" { filename := "x", label := some "Red" }
    (by decide) (by decide)).mpr ⟨"Red", rfl, by decide⟩

/-! ### Claim C2 -/

theorem parseCsvRows_ok (now : DateTime) (cid : Option String) :
    ∀ rows : List Row,
      (∀ row ∈ rows, ratingCheck (csvRating row) = .ok (csvRating row)) →
      parseCsvRows now cid rows = .ok (rows.map (buildCsvPhoto now cid)) := by
  intro rows
  induction rows with
  | nil => intro _; rfl
  | cons r rs ih =>
      intro hall
      have hr : ratingCheck (csvRating r) = .ok (csvRating r) :=
        hall r (List.mem_cons_self r rs)
      have hrs := ih (fun x hx => hall x (List.mem_cons_of_mem r hx))
      have hrat : (buildCsvPhoto now cid r).rating = csvRating r := rfl
      simp only [parseCsvRows, parseCsvRow, hrat, hr, hrs, List.map]

/-- C2 counterexample: a two-row CSV batch whose first row carries the
out-of-range rating `"9"` (which integer-parses but violates the schema
bound) aborts the whole upload with the 400 `CSV parse error`, persisting
neither row — while the claim requires both rows persisted with the
affected field absent. -/
theorem c2_counterexample_out_of_range_rating :
    (ingest_upload ⟨2024, 1, 1, 0, 0, 0⟩ emptyStore none none
        (.csvFile [[("filename", "a.jpg"), ("rating", "9")],
                   [("filename", "b.jpg")]])).2 = .error ⟨400, "CSV parse error"⟩ ∧
    ((ingest_upload ⟨2024, 1, 1, 0, 0, 0⟩ emptyStore none none
        (.csvFile [[("filename", "a.jpg"), ("rating", "9")],
                   [("filename", "b.jpg")]])).1).photos = [] := ⟨rfl, rfl⟩

/-- C2 (amended): per-row coercion failures (unparsable cells) never
abort a CSV batch — every row whose rating cell either fails integer
parsing (becoming an absent field) or parses within the schema bound is
parsed and persisted, the whole batch in input order; but a cell that
parses to an integer *outside* [0,5] fails the schema bound and aborts
the entire batch with a 400 parse error (see the counterexample). -/
theorem c2_bad_rows_degrade :
    ∀ (now : DateTime) (st : Store) (cat src : Option String) (rows : List Row),
      rows ≠ [] →
      (∀ row ∈ rows, ratingCheck (csvRating row) = .ok (csvRating row)) →
      (∃ ids, (ingest_upload now st cat src (.csvFile rows)).2 = .ok ⟨rows.length, ids⟩) ∧
      ((ingest_upload now st cat src (.csvFile rows)).1).photos.map Prod.snd
        = st.photos.map Prod.snd
            ++ rows.map (buildCsvPhoto now ((ensure_catalog_id now st cat src).2)) := by
  intro now st cat src rows hne hall
  have hparse := parseCsvRows_ok now ((ensure_catalog_id now st cat src).2) rows hall
  have hmapne :
      (rows.map (buildCsvPhoto now ((ensure_catalog_id now st cat src).2))).isEmpty
        = false := by
    cases rows with
    | nil => exact absurd rfl hne
    | cons r rs => rfl
  have hins := insertPhotos_spec
    (rows.map (buildCsvPhoto now ((ensure_catalog_id now st cat src).2)))
    ((ensure_catalog_id now st cat src).1)
  simp only [ingest_upload, hparse, finishInsert, hmapne, Bool.false_eq_true, if_false]
  constructor
  · refine ⟨(insertPhotos ((ensure_catalog_id now st cat src).1)
      (rows.map (buildCsvPhoto now ((ensure_catalog_id now st cat src).2)))).2, ?_⟩
    rw [hins.2, List.length_map]
  · rw [hins.1, ensure_photos_eq]

/-- C2 witness: a one-row batch with the unparsable rating `"n/a"`
persists the row with the rating absent (the whole-batch map equation at
a concrete input). -/
theorem c2_witness :
    ((ingest_upload ⟨2024, 1, 1, 0, 0, 0⟩ emptyStore none none
        (.csvFile [[("filename", "a.jpg"), ("rating", "n/a")]])).1).photos.map Prod.snd
      = [buildCsvPhoto ⟨2024, 1, 1, 0, 0, 0⟩ none [("filename", "a.jpg"), ("rating", "n/a")]] := by
  have h := (c2_bad_rows_degrade ⟨2024, 1, 1, 0, 0, 0⟩ emptyStore none none
    [[("filename", "a.jpg"), ("rating", "n/a")]]
    (by simp)
    (by
      intro row hrow
      rw [List.mem_singleton] at hrow
      subst hrow
      rfl)).2
  simpa using h

/-! ### Claim C4 -/

theorem jsonParsedFilename :
    ∀ (now : DateTime) (cid : Option String) (rec : List (String × Value))
      (p : Photo) (s : String),
      dget rec "filename" = .vStr s → s ≠ "" →
      parseJsonRecord now cid (.vDict rec) = .ok p → p.filename = s := by
  intro now cid rec p s hF hs hok
  have htr : (Value.vStr s).isTruthy = true := by
    simp only [Value.isTruthy, Bool.not_eq_true']
    cases hh : s.isEmpty
    · rfl
    · exact absurd ((String.isEmpty_iff s).mp hh) hs
  unfold parseJsonRecord at hok
  rw [exceptBind_eq_ok] at hok; obtain ⟨rec0, hrec0, hok⟩ := hok
  simp only [asDict, Except.ok.injEq] at hrec0
  subst hrec0
  rw [exceptBind_eq_ok] at hok; obtain ⟨x1, hx1, hok⟩ := hok
  rw [exceptBind_eq_ok] at hok; obtain ⟨fn, hfn, hok⟩ := hok
  rw [exceptBind_eq_ok] at hok; obtain ⟨x2, hx2, hok⟩ := hok
  rw [exceptBind_eq_ok] at hok; obtain ⟨x3, hx3, hok⟩ := hok
  rw [exceptBind_eq_ok] at hok; obtain ⟨x4, hx4, hok⟩ := hok
  rw [exceptBind_eq_ok] at hok; obtain ⟨x5, hx5, hok⟩ := hok
  rw [exceptBind_eq_ok] at hok; obtain ⟨x6, hx6, hok⟩ := hok
  rw [exceptBind_eq_ok] at hok; obtain ⟨x7, hx7, hok⟩ := hok
  rw [exceptBind_eq_ok] at hok; obtain ⟨x8, hx8, hok⟩ := hok
  rw [exceptBind_eq_ok] at hok; obtain ⟨x9, hx9, hok⟩ := hok
  rw [exceptBind_eq_ok] at hok; obtain ⟨x10, hx10, hok⟩ := hok
  rw [exceptBind_eq_ok] at hok; obtain ⟨x11, hx11, hok⟩ := hok
  rw [exceptBind_eq_ok] at hok; obtain ⟨x12, hx12, hok⟩ := hok
  rw [exceptBind_eq_ok] at hok; obtain ⟨x13, hx13, hok⟩ := hok
  rw [hF] at hfn
  rw [show pyOr (Value.vStr s) (dget rec "name") = Value.vStr s from by
    simp [pyOr, htr]] at hfn
  rw [show pyOr (Value.vStr s) (Value.vStr "") = Value.vStr s from by
    simp [pyOr, htr]] at hfn
  simp only [asStr, Except.ok.injEq] at hfn
  subst hfn
  simp only [pure, Except.pure, Except.ok.injEq] at hok
  subst hok
  rfl

theorem csvParsedFilename :
    ∀ (now : DateTime) (cid : Option String) (row : Row) (p : Photo) (s : String),
      rget row "filename" = some s → s ≠ "" →
      parseCsvRow now cid row = .ok p → p.filename = s := by
  intro now cid row p s hF hs hok
  have hse : s.isEmpty = false := by
    cases hh : s.isEmpty
    · rfl
    · exact absurd ((String.isEmpty_iff s).mp hh) hs
  cases hr : ratingCheck (buildCsvPhoto now cid row).rating with
  | error e =>
      simp only [parseCsvRow, hr] at hok
      exact Except.noConfusion hok
  | ok v =>
      simp only [parseCsvRow, hr, Except.ok.injEq] at hok
      subst hok
      simp only [buildCsvPhoto, hF, pyOrOS, hse, Bool.false_eq_true, if_false, pyOrStr]

theorem lrcatParsedFilename :
    ∀ (now : DateTime) (cid : String) (row : List (String × Value)) (p : Photo) (b : String),
      dget row "baseName" = .vStr b → b ≠ "" →
      lrcatRowToPhoto now cid row = .ok p → p.filename ≠ "" := by
  intro now cid row p b hB hb hok
  have hbe : b.isEmpty = false := by
    cases hh : b.isEmpty
    · rfl
    · exact absurd ((String.isEmpty_iff b).mp hh) hb
  have htr : (Value.vStr b).isTruthy = true := by
    simp [Value.isTruthy, hbe]
  unfold lrcatRowToPhoto at hok
  rw [exceptBind_eq_ok] at hok; obtain ⟨ext, hext, hok⟩ := hok
  rw [exceptBind_eq_ok] at hok; obtain ⟨pa, hpa, hok⟩ := hok
  rw [exceptBind_eq_ok] at hok; obtain ⟨ra, hra, hok⟩ := hok
  rw [exceptBind_eq_ok] at hok; obtain ⟨fn, hfn, hok⟩ := hok
  simp only [pure, Except.pure, Except.ok.injEq] at hok
  subst hok
  show fn ≠ ""
  rw [hB] at hfn
  rw [show pyOr (Value.vStr b) (Value.vStr "") = Value.vStr b from by
    simp [pyOr, htr]] at hfn
  by_cases hemp :
      (stripDots ((Value.vStr b).pyStr ++ "." ++ stripDots ext)).isEmpty = true
  · rw [if_pos hemp] at hfn
    simp only [asStr, Except.ok.injEq] at hfn
    subst hfn
    exact hb
  · rw [if_neg hemp] at hfn
    simp only [asStr, Except.ok.injEq] at hfn
    subst hfn
    intro hcon
    rw [hcon] at hemp
    exact hemp rfl

/-- C4 counterexample: uploading the JSON array `[{}]` (one record with
neither `filename` nor `name`) succeeds and persists one Photo record
whose filename is the *empty* string — no ingestion path enforces
non-emptiness (`Photo.filename` is an unconstrained `str`). -/
theorem c4_counterexample_empty_filename :
    (ingest_upload ⟨2024, 1, 1, 0, 0, 0⟩ emptyStore none none
        (.jsonFile (.ok (.vList [.vDict []])))).2 = .ok ⟨1, ["0"]⟩ ∧
    ((ingest_upload ⟨2024, 1, 1, 0, 0, 0⟩ emptyStore none none
        (.jsonFile (.ok (.vList [.vDict []])))).1).photos.map
          (fun kp => kp.2.filename) = [""] := ⟨rfl, rfl⟩

/-- C4 (amended): every persisted Photo's filename is a string that may
be *empty*: each path persists the source-supplied name when one is
present — a JSON record with a truthy string `filename` keeps it, a CSV
row with a non-empty `filename` cell keeps it, and a relational row with
a non-empty `baseName` string yields a non-empty filename — but a record
lacking both `filename` and `name` falls back to the empty string and is
persisted anyway (see the counterexample). -/
theorem c4_filename_fallback :
    (∀ (now : DateTime) (cid : Option String) (rec : List (String × Value))
        (p : Photo) (s : String),
        dget rec "filename" = .vStr s → s ≠ "" →
        parseJsonRecord now cid (.vDict rec) = .ok p → p.filename = s) ∧
    (∀ (now : DateTime) (cid : Option String) (row : Row) (p : Photo) (s : String),
        rget row "filename" = some s → s ≠ "" →
        parseCsvRow now cid row = .ok p → p.filename = s) ∧
    (∀ (now : DateTime) (cid : String) (row : List (String × Value))
        (p : Photo) (b : String),
        dget row "baseName" = .vStr b → b ≠ "" →
        lrcatRowToPhoto now cid row = .ok p → p.filename ≠ "") :=
  ⟨jsonParsedFilename, csvParsedFilename, lrcatParsedFilename⟩

/-- C4 witness: a record carrying `filename = "x.jpg"` parses to a photo
with that exact filename. -/
theorem c4_witness :
    parseJsonRecord ⟨2024, 1, 1, 0, 0, 0⟩ none (.vDict [("filename", .vStr "x.jpg")])
      = .ok
        { filename := "x.jpg", path := none, catalog_id := none, title := none,
          caption := none, keywords := [], rating := none, label := none,
          flagged := false, capture_date := none,
          import_date := some ⟨2024, 1, 1, 0, 0, 0⟩, width := none, height := none,
          exif := some { camera := none, lens := none, iso := none, shutter := none,
                         aperture := none, focal_length := none },
          thumbnail_url := none, extra := [] } ∧
    Photo.filename
        { filename := "x.jpg", path := none, catalog_id := none, title := none,
          caption := none, keywords := [], rating := none, label := none,
          flagged := false, capture_date := none,
          import_date := some ⟨2024, 1, 1, 0, 0, 0⟩, width := none, height := none,
          exif := some { camera := none, lens := none, iso := none, shutter := none,
                         aperture := none, focal_length := none },
          thumbnail_url := none, extra := [] } = "x.jpg" :=
  ⟨rfl, c4_filename_fallback.1 ⟨2024, 1, 1, 0, 0, 0⟩ none [("filename", .vStr "x.jpg")]
    _ "x.jpg" rfl (by decide) rfl⟩

end PS
